import Mathlib

set_option maxHeartbeats 1000000

/-!
Shallow embedding of src/repspark_worker.py.

The script drives a headless browser (Playwright), so every browser call is
modelled by its observable outcome: for each selector string, the page state
records whether wait_for_selector(state=visible), scroll_into_view_if_needed
and click succeed within their timeouts.  The control flow of the Python
functions (the candidate loops of wait_and_click_xpath_anywhere, the export
retry loop, the login fill chain, and the pandas/gspread data pipeline) is
translated line by line; side effects (clicks, the text-fallback click, the
debug screenshot) are recorded in an explicit event trace.
-/

namespace RepSpark

/-- Observable behaviour of one document (the main page document or one
frame) towards the three Playwright calls made per candidate in
wait_and_click_xpath_anywhere (lines 30-33 / 43-46 of repspark_worker.py):
whether wait_for_selector(sel, state=visible) succeeds within its timeout,
whether scroll_into_view_if_needed succeeds, and whether click succeeds. -/
structure DocState where
  visible : String → Bool
  scrollOk : String → Bool
  clickOk : String → Bool

/-- The document in which every call fails; also used as the getD default. -/
def noDoc : DocState :=
  { visible := fun _ => false, scrollOk := fun _ => false, clickOk := fun _ => false }

/-- Observable behaviour of the whole page during one call of
wait_and_click_xpath_anywhere: the main document, the list page.frames,
whether page.get_by_text(s).first.click succeeds for a given text s,
whether page.screenshot succeeds, and the value of int(time.time()) used
for the debug screenshot name (line 59). -/
structure PageState where
  main : DocState
  frames : List DocState
  byText : String → Bool
  screenshotOk : Bool
  now : Nat

/-- Events recorded while wait_and_click_xpath_anywhere runs: a candidate
attempt in the main document or in frame idx, a successful click, the
text-fallback attempt and click, and a saved debug screenshot. -/
inductive LocEvent where
  | mainTry (sel : String)
  | mainClick (sel : String)
  | frameTry (idx : Nat) (sel : String)
  | frameClick (idx : Nat) (sel : String)
  | textTry
  | textClick
  | shot (path : String)
  deriving DecidableEq

/-- sel = f"xpath={xp}" (lines 28 and 41). -/
def xpSel (xp : String) : String := "xpath=" ++ xp

/-- One candidate attempt inside document d: the try-block of lines 29-34
(and 42-47) succeeds iff wait_for_selector, scroll_into_view_if_needed and
click all succeed; any exception is swallowed by the except/pass. -/
def tryClickDoc (d : DocState) (sel : String) : Bool :=
  d.visible sel && d.scrollOk sel && d.clickOk sel

/-- Candidate xp fully matches in document d: the whole try-block of the
loop body succeeds for sel = xpath=xp. -/
def docMatch (d : DocState) (xp : String) : Bool := tryClickDoc d (xpSel xp)

/-- The common shape of the two candidate loops (lines 27-36 in the main
document, lines 40-49 inside one frame): try each candidate in order,
return on the first full success, swallow failures and continue.  tryEv and
clickEv tag the produced events for the main document or for frame idx. -/
def candLoop (tryEv clickEv : String → LocEvent) (d : DocState) :
    List String → Bool × List LocEvent
  | [] => (false, [])
  | xp :: rest =>
    if tryClickDoc d (xpSel xp) then
      (true, [tryEv (xpSel xp), clickEv (xpSel xp)])
    else
      let r := candLoop tryEv clickEv d rest
      (r.1, tryEv (xpSel xp) :: r.2)

/-- Lines 27-36: the candidate loop over the main document. -/
def mainLoop (d : DocState) (xpaths : List String) : Bool × List LocEvent :=
  candLoop LocEvent.mainTry LocEvent.mainClick d xpaths

/-- Lines 40-49: the candidate loop inside the frame at position idx. -/
def frameCandLoop (f : DocState) (idx : Nat) (xpaths : List String) :
    Bool × List LocEvent :=
  candLoop (LocEvent.frameTry idx) (LocEvent.frameClick idx) f xpaths

/-- Lines 39-49: iterate over page.frames in enumeration order (idx is the
position of the first frame of fs within page.frames), returning on the
first frame whose candidate loop succeeds. -/
def frameLoop (xpaths : List String) : List DocState → Nat → Bool × List LocEvent
  | [], _ => (false, [])
  | f :: fs, idx =>
    let r := frameCandLoop f idx xpaths
    if r.1 then r
    else
      let r2 := frameLoop xpaths fs (idx + 1)
      (r2.1, r.2 ++ r2.2)

/-- Line 60: debug_path = Path(f"{debug_prefix}_{ts}.png") with ts = int(time.time()). -/
def debugShotPath (dp : String) (now : Nat) : String :=
  dp ++ "_" ++ toString now ++ ".png"

/-- Lines 20-66: wait_and_click_xpath_anywhere.  Tries every candidate in
the main document, then every candidate in every frame, then the hardcoded
text fallback get_by_text("Export ATS to Excel"); on total failure it
best-effort saves a debug screenshot and returns False.  The second
component is the trace of events. -/
def wait_and_click_xpath_anywhere (page : PageState) (xpaths : List String)
    (dp : String) : Bool × List LocEvent :=
  if (mainLoop page.main xpaths).1 then
    mainLoop page.main xpaths
  else if (frameLoop xpaths page.frames 0).1 then
    (true, (mainLoop page.main xpaths).2 ++ (frameLoop xpaths page.frames 0).2)
  else if page.byText "Export ATS to Excel" then
    (true, (mainLoop page.main xpaths).2 ++ (frameLoop xpaths page.frames 0).2 ++
      [LocEvent.textTry, LocEvent.textClick])
  else if page.screenshotOk then
    (false, (mainLoop page.main xpaths).2 ++ (frameLoop xpaths page.frames 0).2 ++
      [LocEvent.textTry] ++ [LocEvent.shot (debugShotPath dp page.now)])
  else
    (false, (mainLoop page.main xpaths).2 ++ (frameLoop xpaths page.frames 0).2 ++
      [LocEvent.textTry])

/-- Recognises the saved-screenshot events of a trace. -/
def isShot : LocEvent → Bool
  | LocEvent.shot _ => true
  | _ => false

/-- Recognises candidate-loop events (attempts and clicks in the main
document or in a frame), as opposed to the text fallback and screenshot. -/
def isCandEvent : LocEvent → Bool
  | LocEvent.mainTry _ => true
  | LocEvent.mainClick _ => true
  | LocEvent.frameTry _ _ => true
  | LocEvent.frameClick _ _ => true
  | _ => false

/-- The attempt events produced by a full failed pass of one candidate loop
over frame idx. -/
def frameTryTrace (xpaths : List String) (idx : Nat) : List LocEvent :=
  xpaths.map (fun xp => LocEvent.frameTry idx (xpSel xp))

/-- The attempt events produced by full failed passes over count frames
starting at position idx. -/
def framesTryTrace (xpaths : List String) (idx count : Nat) : List LocEvent :=
  (List.range count).flatMap (fun t => frameTryTrace xpaths (idx + t))

/-! Lemmas about the candidate loops. -/

theorem candLoop_all_fail (te ce : String → LocEvent) (d : DocState) :
    ∀ xs : List String, (∀ xp ∈ xs, docMatch d xp = false) →
      candLoop te ce d xs = (false, xs.map (fun xp => te (xpSel xp)))
  | [], _ => rfl
  | xp :: rest, h => by
    have hx : tryClickDoc d (xpSel xp) = false := h xp (List.mem_cons_self xp rest)
    have ih := candLoop_all_fail te ce d rest (fun y hy => h y (List.mem_cons_of_mem xp hy))
    simp [candLoop, hx, ih]

theorem candLoop_first_match (te ce : String → LocEvent) (d : DocState) :
    ∀ (xs : List String) (i : Nat), i < xs.length →
      docMatch d (xs.getD i "") = true →
      (∀ j, j < i → docMatch d (xs.getD j "") = false) →
      candLoop te ce d xs =
        (true, (xs.take (i + 1)).map (fun xp => te (xpSel xp)) ++
          [ce (xpSel (xs.getD i ""))])
  | [], i, hi, _, _ => absurd hi (by simp)
  | xp :: rest, 0, _, hm, _ => by
    have hx : tryClickDoc d (xpSel xp) = true := hm
    simp [candLoop, hx]
  | xp :: rest, i + 1, hi, hm, hf => by
    have hx : tryClickDoc d (xpSel xp) = false := hf 0 (Nat.succ_pos i)
    have ih := candLoop_first_match te ce d rest i (by simpa using hi)
      (by simpa using hm) (fun j hj => by simpa using hf (j + 1) (Nat.succ_lt_succ hj))
    simp [candLoop, hx, ih]

theorem frameLoop_xpaths_nil : ∀ (fs : List DocState) (idx : Nat),
    frameLoop [] fs idx = (false, [])
  | [], _ => rfl
  | f :: fs, idx => by
    simp [frameLoop, frameCandLoop, candLoop, frameLoop_xpaths_nil fs (idx + 1)]

theorem framesTryTrace_zero (xpaths : List String) (idx : Nat) :
    framesTryTrace xpaths idx 0 = [] := rfl

theorem framesTryTrace_succ_right (xpaths : List String) (idx c : Nat) :
    framesTryTrace xpaths idx (c + 1) =
      framesTryTrace xpaths idx c ++ frameTryTrace xpaths (idx + c) := by
  simp [framesTryTrace, List.range_succ]

theorem framesTryTrace_succ_left (xpaths : List String) :
    ∀ (c idx : Nat), framesTryTrace xpaths idx (c + 1) =
      frameTryTrace xpaths idx ++ framesTryTrace xpaths (idx + 1) c := by
  intro c
  induction c with
  | zero =>
    intro idx
    simp [framesTryTrace, List.range_succ]
  | succ c ih =>
    intro idx
    have h1 := framesTryTrace_succ_right xpaths idx (c + 1)
    have h2 := framesTryTrace_succ_right xpaths (idx + 1) c
    have hx : idx + (c + 1) = (idx + 1) + c := by omega
    rw [h1, ih idx, h2, hx, List.append_assoc]

theorem frameLoop_all_fail (xpaths : List String) :
    ∀ (fs : List DocState) (idx : Nat),
      (∀ f ∈ fs, ∀ xp ∈ xpaths, docMatch f xp = false) →
      frameLoop xpaths fs idx = (false, framesTryTrace xpaths idx fs.length)
  | [], idx, _ => rfl
  | f :: fs, idx, h => by
    have hf : frameCandLoop f idx xpaths = (false, frameTryTrace xpaths idx) :=
      candLoop_all_fail _ _ f xpaths (h f (List.mem_cons_self f fs))
    have ih := frameLoop_all_fail xpaths fs (idx + 1)
      (fun g hg => h g (List.mem_cons_of_mem f hg))
    simp only [frameLoop, hf, ih]
    simp [framesTryTrace_succ_left, frameTryTrace]

theorem frameLoop_first_match (xpaths : List String) (i : Nat)
    (hi : i < xpaths.length) :
    ∀ (fs : List DocState) (idx k : Nat), k < fs.length →
      (∀ t, t < k → ∀ xp ∈ xpaths, docMatch (fs.getD t noDoc) xp = false) →
      docMatch (fs.getD k noDoc) (xpaths.getD i "") = true →
      (∀ j, j < i → docMatch (fs.getD k noDoc) (xpaths.getD j "") = false) →
      frameLoop xpaths fs idx =
        (true, framesTryTrace xpaths idx k ++
          ((xpaths.take (i + 1)).map (fun xp => LocEvent.frameTry (idx + k) (xpSel xp)) ++
            [LocEvent.frameClick (idx + k) (xpSel (xpaths.getD i ""))]))
  | [], idx, k, hk, _, _, _ => absurd hk (by simp)
  | f :: fs, idx, 0, _, _, hm, hfirst => by
    have hcl := candLoop_first_match (LocEvent.frameTry idx) (LocEvent.frameClick idx)
      f xpaths i hi (by simpa using hm) (fun j hj => by simpa using hfirst j hj)
    simp only [frameLoop, frameCandLoop] at *
    simp [hcl, framesTryTrace_zero]
  | f :: fs, idx, k + 1, hk, hbefore, hm, hfirst => by
    have hf : frameCandLoop f idx xpaths = (false, frameTryTrace xpaths idx) :=
      candLoop_all_fail _ _ f xpaths (by simpa using hbefore 0 (Nat.succ_pos k))
    have ih := frameLoop_first_match xpaths i hi fs (idx + 1) k (by simpa using hk)
      (fun t ht xp hxp => by simpa using hbefore (t + 1) (Nat.succ_lt_succ ht) xp hxp)
      (by simpa using hm) (fun j hj => by simpa using hfirst j hj)
    have hx : idx + 1 + k = idx + (k + 1) := by omega
    simp only [frameLoop, hf, ih, hx]
    simp [framesTryTrace_succ_left, List.append_assoc]

theorem countP_isShot_map_mainTry (xs : List String) :
    (xs.map (fun xp => LocEvent.mainTry (xpSel xp))).countP isShot = 0 := by
  rw [List.countP_eq_zero]
  intro e he
  simp only [List.mem_map] at he
  obtain ⟨xp, _, rfl⟩ := he
  simp [isShot]

theorem countP_isShot_framesTryTrace (xs : List String) (idx c : Nat) :
    (framesTryTrace xs idx c).countP isShot = 0 := by
  rw [List.countP_eq_zero]
  intro e he
  simp only [framesTryTrace, frameTryTrace, List.mem_flatMap, List.mem_map] at he
  obtain ⟨t, _, xp, _, rfl⟩ := he
  simp [isShot]

/-- Reduction of wait_and_click_xpath_anywhere when every candidate fails in
the main document and in every frame: only the text fallback and, on its
failure, the best-effort debug screenshot remain. -/
theorem wacxa_all_fail (page : PageState) (xpaths : List String) (dp : String)
    (hmain : ∀ xp ∈ xpaths, docMatch page.main xp = false)
    (hframes : ∀ f ∈ page.frames, ∀ xp ∈ xpaths, docMatch f xp = false) :
    wait_and_click_xpath_anywhere page xpaths dp =
      (if page.byText "Export ATS to Excel" then
        (true, xpaths.map (fun xp => LocEvent.mainTry (xpSel xp)) ++
          framesTryTrace xpaths 0 page.frames.length ++
          [LocEvent.textTry, LocEvent.textClick])
      else if page.screenshotOk then
        (false, xpaths.map (fun xp => LocEvent.mainTry (xpSel xp)) ++
          framesTryTrace xpaths 0 page.frames.length ++
          [LocEvent.textTry] ++ [LocEvent.shot (debugShotPath dp page.now)])
      else
        (false, xpaths.map (fun xp => LocEvent.mainTry (xpSel xp)) ++
          framesTryTrace xpaths 0 page.frames.length ++ [LocEvent.textTry])) := by
  have h1 := candLoop_all_fail LocEvent.mainTry LocEvent.mainClick page.main xpaths hmain
  have h2 := frameLoop_all_fail xpaths page.frames 0 hframes
  simp only [wait_and_click_xpath_anywhere, mainLoop, h1, h2]
  simp

/-- Claim C1: if some candidate matches a visible, clickable element in the
main document, wait_and_click_xpath_anywhere clicks the first such candidate
in list order and returns True; the full trace shows that no later
candidate, no frame and no text fallback is attempted. -/
theorem claim_C1 (page : PageState) (xpaths : List String) (dp : String) (i : Nat)
    (hi : i < xpaths.length)
    (hmatch : docMatch page.main (xpaths.getD i "") = true)
    (hfirst : ∀ j, j < i → docMatch page.main (xpaths.getD j "") = false) :
    wait_and_click_xpath_anywhere page xpaths dp =
      (true, (xpaths.take (i + 1)).map (fun xp => LocEvent.mainTry (xpSel xp)) ++
        [LocEvent.mainClick (xpSel (xpaths.getD i ""))]) := by
  have h := candLoop_first_match LocEvent.mainTry LocEvent.mainClick page.main xpaths
    i hi hmatch hfirst
  simp only [wait_and_click_xpath_anywhere, mainLoop, h]
  simp

/-- A document in which exactly the selector xpath=b is visible, scrollable
and clickable. -/
def docOnlyB : DocState :=
  { visible := fun s => s == "xpath=b", scrollOk := fun _ => true,
    clickOk := fun _ => true }

/-- A page whose main document matches only candidate b, with no frames and
no text fallback. -/
def pageMainB : PageState :=
  { main := docOnlyB, frames := [], byText := fun _ => false,
    screenshotOk := false, now := 0 }

theorem claim_C1_witness :
    wait_and_click_xpath_anywhere pageMainB ["a", "b"] "debug" =
      (true, ((["a", "b"].take 2).map (fun xp => LocEvent.mainTry (xpSel xp))) ++
        [LocEvent.mainClick (xpSel (["a", "b"].getD 1 ""))]) :=
  claim_C1 pageMainB ["a", "b"] "debug" 1 (by decide) (by decide)
    (by
      intro j hj
      have hj0 : j = 0 := by omega
      subst hj0
      decide)

/-- Claim C2: when no candidate matches in the main document, the frames are
searched in enumeration order trying every candidate within each frame, and
the call succeeds at the lexicographically first frame/candidate match (part
one, full trace); only when every frame also fails is the hardcoded
get_by_text("Export ATS to Excel") fallback attempted, whose outcome alone
then decides the result, independently of the candidate list (part two). -/
theorem claim_C2 :
    (∀ (page : PageState) (xpaths : List String) (dp : String) (k i : Nat),
      (∀ xp ∈ xpaths, docMatch page.main xp = false) →
      k < page.frames.length →
      (∀ t, t < k → ∀ xp ∈ xpaths, docMatch (page.frames.getD t noDoc) xp = false) →
      i < xpaths.length →
      docMatch (page.frames.getD k noDoc) (xpaths.getD i "") = true →
      (∀ j, j < i → docMatch (page.frames.getD k noDoc) (xpaths.getD j "") = false) →
      wait_and_click_xpath_anywhere page xpaths dp =
        (true, xpaths.map (fun xp => LocEvent.mainTry (xpSel xp)) ++
          (framesTryTrace xpaths 0 k ++
            ((xpaths.take (i + 1)).map (fun xp => LocEvent.frameTry k (xpSel xp)) ++
              [LocEvent.frameClick k (xpSel (xpaths.getD i ""))])))) ∧
    (∀ (page : PageState) (xpaths : List String) (dp : String),
      (∀ xp ∈ xpaths, docMatch page.main xp = false) →
      (∀ f ∈ page.frames, ∀ xp ∈ xpaths, docMatch f xp = false) →
      LocEvent.textTry ∈ (wait_and_click_xpath_anywhere page xpaths dp).2 ∧
      (wait_and_click_xpath_anywhere page xpaths dp).1 =
        page.byText "Export ATS to Excel") := by
  constructor
  · intro page xpaths dp k i hmain hk hbefore hi hm hfirst
    have h1 := candLoop_all_fail LocEvent.mainTry LocEvent.mainClick page.main xpaths hmain
    have h2 := frameLoop_first_match xpaths i hi page.frames 0 k hk hbefore hm hfirst
    simp only [Nat.zero_add] at h2
    simp only [wait_and_click_xpath_anywhere, mainLoop, h1, h2]
    simp
  · intro page xpaths dp hmain hframes
    rw [wacxa_all_fail page xpaths dp hmain hframes]
    cases hbt : page.byText "Export ATS to Excel" with
    | true => simp [hbt]
    | false =>
      cases hs : page.screenshotOk with
      | true => simp [hbt, hs]
      | false => simp [hbt, hs]

/-- A page with two frames: the first matches nothing, the second matches
only candidate b; the main document matches nothing. -/
def pageFrameB : PageState :=
  { main := noDoc, frames := [noDoc, docOnlyB], byText := fun _ => false,
    screenshotOk := false, now := 0 }

/-- A page where nothing matches but the text fallback click succeeds. -/
def pageTextOnly : PageState :=
  { main := noDoc, frames := [noDoc], byText := fun _ => true,
    screenshotOk := false, now := 0 }

theorem claim_C2_witness :
    (wait_and_click_xpath_anywhere pageFrameB ["a", "b"] "debug" =
      (true, (["a", "b"].map (fun xp => LocEvent.mainTry (xpSel xp))) ++
        (framesTryTrace ["a", "b"] 0 1 ++
          (((["a", "b"].take 2).map (fun xp => LocEvent.frameTry 1 (xpSel xp))) ++
            [LocEvent.frameClick 1 (xpSel (["a", "b"].getD 1 ""))])))) ∧
    (LocEvent.textTry ∈ (wait_and_click_xpath_anywhere pageTextOnly ["a"] "debug").2 ∧
      (wait_and_click_xpath_anywhere pageTextOnly ["a"] "debug").1 =
        pageTextOnly.byText "Export ATS to Excel") :=
  ⟨claim_C2.1 pageFrameB ["a", "b"] "debug" 1 1 (by decide) (by decide)
      (by
        intro t ht
        have ht0 : t = 0 := by omega
        subst ht0
        decide)
      (by decide) (by decide)
      (by
        intro j hj
        have hj0 : j = 0 := by omega
        subst hj0
        decide),
    claim_C2.2 pageTextOnly ["a"] "debug" (by decide) (by decide)⟩

/-- A page on which everything fails, including the screenshot call. -/
def pageFailAll : PageState :=
  { main := noDoc, frames := [], byText := fun _ => false,
    screenshotOk := false, now := 0 }

/-- Claim C6 counterexample: at a page state where no candidate matches
anywhere, the text fallback is absent and the page.screenshot call itself
fails (its exception is swallowed by lines 61-65), the call returns False
but produces zero screenshot artifacts, not exactly one. -/
theorem claim_C6_counterexample :
    (∀ xp ∈ ["a"], docMatch pageFailAll.main xp = false) ∧
    (∀ f ∈ pageFailAll.frames, ∀ xp ∈ ["a"], docMatch f xp = false) ∧
    pageFailAll.byText "Export ATS to Excel" = false ∧
    (wait_and_click_xpath_anywhere pageFailAll ["a"] "debug").1 = false ∧
    (wait_and_click_xpath_anywhere pageFailAll ["a"] "debug").2.countP isShot = 0 := by
  decide

/-- Claim C6 (amended): when no candidate matches in the main document or
any frame and the text fallback is absent, the call returns False and
attempts exactly one diagnostic screenshot, producing exactly one artifact
named prefix_timestamp.png when the screenshot operation succeeds and none
when it fails. -/
theorem claim_C6 (page : PageState) (xpaths : List String) (dp : String)
    (hmain : ∀ xp ∈ xpaths, docMatch page.main xp = false)
    (hframes : ∀ f ∈ page.frames, ∀ xp ∈ xpaths, docMatch f xp = false)
    (hbt : page.byText "Export ATS to Excel" = false) :
    (wait_and_click_xpath_anywhere page xpaths dp).1 = false ∧
    ((wait_and_click_xpath_anywhere page xpaths dp).2.countP isShot =
      if page.screenshotOk then 1 else 0) ∧
    (page.screenshotOk = true →
      LocEvent.shot (debugShotPath dp page.now) ∈
        (wait_and_click_xpath_anywhere page xpaths dp).2) := by
  rw [wacxa_all_fail page xpaths dp hmain hframes]
  cases hs : page.screenshotOk with
  | true =>
    simp [hbt, hs, List.countP_append, countP_isShot_map_mainTry,
      countP_isShot_framesTryTrace, List.countP_cons, isShot]
  | false =>
    simp [hbt, hs, List.countP_append, countP_isShot_map_mainTry,
      countP_isShot_framesTryTrace, List.countP_cons, isShot]

/-- A page on which everything fails except the screenshot call. -/
def pageShotOk : PageState :=
  { main := noDoc, frames := [], byText := fun _ => false,
    screenshotOk := true, now := 42 }

theorem claim_C6_witness :
    (wait_and_click_xpath_anywhere pageShotOk ["a"] "debug").1 = false ∧
    ((wait_and_click_xpath_anywhere pageShotOk ["a"] "debug").2.countP isShot =
      if pageShotOk.screenshotOk then 1 else 0) ∧
    (pageShotOk.screenshotOk = true →
      LocEvent.shot (debugShotPath "debug" pageShotOk.now) ∈
        (wait_and_click_xpath_anywhere pageShotOk ["a"] "debug").2) :=
  claim_C6 pageShotOk ["a"] "debug" (by decide) (by decide) (by decide)

/-- Claim C10: called with an empty candidate list, the function performs no
candidate attempt in the main document or in any frame, still attempts the
hardcoded Export ATS to Excel text click, and returns True exactly when that
fallback click succeeds. -/
theorem claim_C10 (page : PageState) (dp : String) :
    (wait_and_click_xpath_anywhere page [] dp).1 =
      page.byText "Export ATS to Excel" ∧
    (wait_and_click_xpath_anywhere page [] dp).2.countP isCandEvent = 0 ∧
    LocEvent.textTry ∈ (wait_and_click_xpath_anywhere page [] dp).2 := by
  have h2 := frameLoop_xpaths_nil page.frames 0
  simp only [wait_and_click_xpath_anywhere, mainLoop, candLoop, h2]
  cases hbt : page.byText "Export ATS to Excel" with
  | true => simp [hbt, List.countP_cons, isCandEvent]
  | false =>
    cases hs : page.screenshotOk with
    | true => simp [hbt, hs, List.countP_cons, isCandEvent, isShot]
    | false => simp [hbt, hs, List.countP_cons, isCandEvent]

/-! Export orchestration with retry (lines 156-173). -/

/-- The two export-button candidates (lines 86-94, default values of
EXPORT_BTN_ID_XPATH and EXPORT_FALLBACK_XPATH, collected on line 94). -/
def export_xpaths : List String :=
  ["//*[@id=\x27ctl00_ctl00_cphB_filterMenu_btnExportToExcelFull\x27]",
   "/html/body/form/div[3]/div[1]/div[3]/div[1]/div/nav/div/div[2]/div/a/span"]

/-- What the browser reports for one completed download event: the
suggested_filename attribute (None is possible in the model) and the
downloaded bytes. -/
structure DownloadInfo where
  suggestedFilename : Option String
  content : String
  deriving DecidableEq

/-- Environment of the retry loop: for attempt n, the page state its locator
call observes, whether page.expect_download yields a download (none models a
timeout or any exception inside the with-block), whether download.save_as
succeeds, and the int(time.time()) used for the synthesized name. -/
structure ExportEnv where
  page : Nat → PageState
  download : Nat → Option DownloadInfo
  saveOk : Nat → Bool
  time : Nat → Nat

/-- Line 163 fallback name: f"Availability_{int(time.time())}.xlsx". -/
def availabilityDefaultName (t : Nat) : String :=
  "Availability_" ++ toString t ++ ".xlsx"

/-- Line 163: download.suggested_filename or the synthesized default; the
Python or-expression also discards an empty (falsy) suggested name. -/
def resolveFilename (d : DownloadInfo) (t : Nat) : String :=
  match d.suggestedFilename with
  | some s => if s = "" then availabilityDefaultName t else s
  | none => availabilityDefaultName t

/-- The file persisted by download.save_as (lines 164-165): its path under
the downloads directory and its content. -/
structure SavedFile where
  path : String
  content : String
  deriving DecidableEq

/-- Lines 158-168, the body of one attempt: raise (return none) when the
locator fails, when the download event does not arrive, or when save_as
fails; otherwise save the file under downloads/ and report it. -/
def attemptBody (env : ExportEnv) (n : Nat) : Option SavedFile :=
  if (wait_and_click_xpath_anywhere (env.page n) export_xpaths
      ("debug_export_try" ++ toString n)).1 then
    match env.download n with
    | some d =>
      if env.saveOk n then
        some { path := "downloads/" ++ resolveFilename d (env.time n),
               content := d.content }
      else none
    | none => none
  else none

/-- Lines 156-171: for attempt in range(1, 4): on the first successful
attempt set success and break; a failed attempt is logged and retried.  The
first component lists the attempts actually performed; the second is the
attempt number and saved file of the successful attempt, or none when every
attempt failed (so that the assert on line 173 fails the run). -/
def exportLoopAux (env : ExportEnv) : List Nat → List Nat × Option (Nat × SavedFile)
  | [] => ([], none)
  | n :: rest =>
    match attemptBody env n with
    | some f => ([n], some (n, f))
    | none =>
      let r := exportLoopAux env rest
      (n :: r.1, r.2)

/-- The retry loop instantiated at range(1, 4) = [1, 2, 3]. -/
def exportRetry (env : ExportEnv) : List Nat × Option (Nat × SavedFile) :=
  exportLoopAux env [1, 2, 3]

/-- Claim C3: the export orchestration performs at most 3 attempts; when
attempt 1 fails and attempt 2 succeeds, the loop stops after attempt 2 and
the saved file is the one of attempt 2 (no attempt 3 occurs); when all 3
attempts fail, the loop reports failure and the run fails. -/
theorem claim_C3 :
    (∀ env : ExportEnv, (exportRetry env).1.length ≤ 3) ∧
    (∀ (env : ExportEnv) (f : SavedFile),
      attemptBody env 1 = none → attemptBody env 2 = some f →
      exportRetry env = ([1, 2], some (2, f))) ∧
    (∀ env : ExportEnv,
      attemptBody env 1 = none → attemptBody env 2 = none →
      attemptBody env 3 = none → exportRetry env = ([1, 2, 3], none)) := by
  refine ⟨?_, ?_, ?_⟩
  · intro env
    cases h1 : attemptBody env 1 with
    | some f => simp [exportRetry, exportLoopAux, h1]
    | none =>
      cases h2 : attemptBody env 2 with
      | some f => simp [exportRetry, exportLoopAux, h1, h2]
      | none =>
        cases h3 : attemptBody env 3 with
        | some f => simp [exportRetry, exportLoopAux, h1, h2, h3]
        | none => simp [exportRetry, exportLoopAux, h1, h2, h3]
  · intro env f h1 h2
    simp [exportRetry, exportLoopAux, h1, h2]
  · intro env h1 h2 h3
    simp [exportRetry, exportLoopAux, h1, h2, h3]

/-- An environment whose first attempt fails (nothing clickable) and whose
second attempt succeeds through the text fallback and downloads a file. -/
def envSecondTry : ExportEnv :=
  { page := fun n => if n = 2 then pageTextOnly else pageFailAll,
    download := fun _ => some { suggestedFilename := some "export.xlsx",
                                content := "DATA" },
    saveOk := fun _ => true,
    time := fun _ => 0 }

theorem claim_C3_witness :
    exportRetry envSecondTry =
      ([1, 2], some (2, { path := "downloads/export.xlsx", content := "DATA" })) :=
  claim_C3.2.1 envSecondTry
    { path := "downloads/export.xlsx", content := "DATA" }
    (by decide) (by decide)

/-! The pandas step (lines 189-190): values = [df.columns.tolist()] +
df.fillna("").astype(str).values.tolist(). -/

/-- One cell of the DataFrame produced by pd.read_excel: a missing value
(NaN/None), a text value, or an integer value. -/
inductive Cell where
  | na
  | s (v : String)
  | i (v : Int)
  deriving DecidableEq

/-- The DataFrame: column names and the data rows. -/
structure DataFrame where
  columns : List String
  data : List (List Cell)

/-- df.fillna(repl) on one cell: replace a missing value by repl. -/
def fillnaCell (repl : String) : Cell → Cell
  | Cell.na => Cell.s repl
  | c => c

/-- astype(str) on one cell: Python str() of the value. -/
def pyStr : Cell → String
  | Cell.s v => v
  | Cell.i v => toString v
  | Cell.na => "nan"

/-- Line 190: the row table pushed to the worksheet, header row first, every
data cell passed through fillna("") and astype(str). -/
def dfValues (df : DataFrame) : List (List String) :=
  df.columns :: df.data.map (fun row => row.map (fun c => pyStr (fillnaCell "" c)))

/-- Claim C4: for the file with header [SKU, Qty] and data rows
[[A1, 5], [A2, missing]], the pushed row table is exactly
[[SKU, Qty], [A1, 5], [A2, empty]]: headers first, integers stringified,
missing values turned into the empty string. -/
theorem claim_C4 :
    dfValues { columns := ["SKU", "Qty"],
               data := [[Cell.s "A1", Cell.i 5], [Cell.s "A2", Cell.na]] } =
      [["SKU", "Qty"], ["A1", "5"], ["A2", ""]] := by
  decide

/-! The gspread worksheet sync (lines 192-194): ws.clear(); ws.resize(...);
ws.update("A1", values, value_input_option="RAW").  A worksheet is its grid
of cell strings; an absent cell reads as the empty string. -/

/-- Reading cell (i, j) of a grid; out-of-range reads give the empty
string, as an empty spreadsheet cell does. -/
def wsGet (g : List (List String)) (i j : Nat) : String :=
  (g.getD i []).getD j ""

/-- A fresh r-by-c grid whose cell (i, j) holds f i j. -/
def mkGrid (r c : Nat) (f : Nat → Nat → String) : List (List String) :=
  (List.range r).map (fun i => (List.range c).map (fun j => f i j))

/-- ws.clear() (line 192): every cell becomes empty, dimensions are kept. -/
def wsClear (g : List (List String)) : List (List String) :=
  g.map (fun row => row.map (fun _ => ""))

/-- ws.resize(rows=r, cols=c) (line 193): the grid becomes r-by-c, keeping
the overlapping cells and filling new cells with the empty string. -/
def wsResize (r c : Nat) (g : List (List String)) : List (List String) :=
  mkGrid r c (fun i j => wsGet g i j)

/-- The value the update writes at (i, j), when the block of values covers
that cell. -/
def cellAt? (values : List (List String)) (i j : Nat) : Option String :=
  match values[i]? with
  | some row => row[j]?
  | none => none

/-- ws.update("A1", values, value_input_option="RAW") (line 194): write the
block of values at the top-left cell as literal values, keeping dimensions
and the cells outside the block. -/
def wsUpdateA1 (values g : List (List String)) : List (List String) :=
  (List.range g.length).map (fun i =>
    (List.range (g.getD i []).length).map (fun j =>
      (cellAt? values i j).getD ((g.getD i []).getD j "")))

/-- Line 193: rows=max(len(values), 100). -/
def syncRows (values : List (List String)) : Nat := max values.length 100

/-- Line 193: cols=max(len(values[0]), 26). -/
def syncCols (values : List (List String)) : Nat := max (values.headD []).length 26

/-- Lines 192-194 in order: clear, resize to the floored dimensions, write
the row table at A1. -/
def wsSync (values g : List (List String)) : List (List String) :=
  wsUpdateA1 values (wsResize (syncRows values) (syncCols values) (wsClear g))

/-- The grid the sync always produces: floored dimensions, the row table in
the top-left block, empty cells elsewhere. -/
def canonGrid (values : List (List String)) : List (List String) :=
  mkGrid (syncRows values) (syncCols values)
    (fun i j => (cellAt? values i j).getD "")

theorem wsGet_wsClear (g : List (List String)) (i j : Nat) :
    wsGet (wsClear g) i j = "" := by
  simp only [wsGet, wsClear, List.getD_eq_getElem?_getD, List.getElem?_map]
  cases hrow : g[i]? with
  | none => simp
  | some row =>
    simp only [Option.map_some', Option.getD_some]
    cases hc : row[j]? with
    | none => simp [List.getElem?_map, hc]
    | some v => simp [List.getElem?_map, hc]

theorem wsResize_wsClear (r c : Nat) (g : List (List String)) :
    wsResize r c (wsClear g) = mkGrid r c (fun _ _ => "") := by
  have h : (fun i j => wsGet (wsClear g) i j) = fun _ _ => ("" : String) := by
    funext i j
    exact wsGet_wsClear g i j
  rw [wsResize, h]

theorem getD_mkGrid (r c : Nat) (f : Nat → Nat → String) (i : Nat) (hi : i < r) :
    (mkGrid r c f).getD i [] = (List.range c).map (fun j => f i j) := by
  simp [mkGrid, List.getD_eq_getElem?_getD, List.getElem?_map,
    List.getElem?_range, hi]

theorem wsUpdateA1_mkGrid (values : List (List String)) (r c : Nat)
    (f : Nat → Nat → String) :
    wsUpdateA1 values (mkGrid r c f) =
      mkGrid r c (fun i j => (cellAt? values i j).getD (f i j)) := by
  have hlen : (mkGrid r c f).length = r := by simp [mkGrid]
  rw [wsUpdateA1, hlen]
  conv_rhs => rw [mkGrid]
  apply List.map_congr_left
  intro i hi
  rw [List.mem_range] at hi
  rw [getD_mkGrid r c f i hi]
  rw [List.length_map, List.length_range]
  apply List.map_congr_left
  intro j hj
  rw [List.mem_range] at hj
  have hgd : ((List.range c).map (fun j => f i j)).getD j "" = f i j := by
    simp [List.getD_eq_getElem?_getD, List.getElem?_map, List.getElem?_range, hj]
  rw [hgd]

/-- The sync is a constant function of the prior grid: whatever the
worksheet held, the result is the canonical grid of the row table. -/
theorem wsSync_eq_canonGrid (values g : List (List String)) :
    wsSync values g = canonGrid values := by
  rw [wsSync, wsResize_wsClear, wsUpdateA1_mkGrid, canonGrid]

/-- Claim C5: the sync (clear, resize, write at A1 as raw values) is
idempotent in content: running it twice with the same row table gives the
same final grid as running it once, and the result does not depend on the
prior contents of the worksheet at all. -/
theorem claim_C5 (values g h : List (List String)) :
    wsSync values (wsSync values g) = wsSync values g ∧
    wsSync values g = wsSync values h := by
  rw [wsSync_eq_canonGrid values g, wsSync_eq_canonGrid values h,
    wsSync_eq_canonGrid values (canonGrid values)]
  exact ⟨rfl, rfl⟩

/-- A row table of a header row plus 40 data rows, 5 columns wide. -/
def table40x5 : List (List String) := List.replicate 41 (List.replicate 5 "x")

theorem map_length_mkGrid (r c : Nat) (f : Nat → Nat → String) :
    (mkGrid r c f).map (fun row => row.length) = List.replicate r c := by
  rw [mkGrid, List.map_map]
  have hc : ((fun row => List.length row) ∘ fun i =>
      (List.range c).map (fun j => f i j)) = fun _ => c := by
    funext i
    simp
  rw [hc, List.map_const']
  simp

/-- Claim C7: the sync resizes the worksheet to max(rows, 100) by
max(cols, 26); in particular a row table of 40 data rows (41 rows with the
header) and 5 columns yields a 100-by-26 grid, not a 40-by-5 one. -/
theorem claim_C7 (values g : List (List String)) :
    ((wsSync values g).map (fun row => row.length) =
      List.replicate (max values.length 100) (max (values.headD []).length 26)) ∧
    ((wsSync table40x5 g).map (fun row => row.length) = List.replicate 100 26) := by
  have h1 : syncRows table40x5 = 100 := by decide
  have h2 : syncCols table40x5 = 26 := by decide
  constructor
  · rw [wsSync_eq_canonGrid, canonGrid, map_length_mkGrid]
    rfl
  · rw [wsSync_eq_canonGrid, canonGrid, map_length_mkGrid, h1, h2]

/-! The login fill helper (lines 124-137): def fill(sel, val) returns True
on success, returns False on PWTimeout, and lets any other exception
propagate; the email and password fields are each filled by an or-chain of
three fill calls guarded by an assert. -/

/-- Outcome of page.locator(sel).fill(val, timeout=10_000) for a given
selector: the field is filled, the call raises PWTimeout, or it raises some
other exception. -/
inductive FillOutcome where
  | filled
  | timedOut
  | raised
  deriving DecidableEq

/-- Lines 124-129: fill(sel, val).  Except.ok true on success, Except.ok
false when PWTimeout is caught, Except.error () when any other exception
propagates out of the helper. -/
def fill (penv : String → FillOutcome) (sel val : String) : Except Unit Bool :=
  match penv sel with
  | FillOutcome.filled => Except.ok true
  | FillOutcome.timedOut => Except.ok false
  | FillOutcome.raised => Except.error ()

/-- The Python or-chain fill(s1, v) or fill(s2, v) or fill(s3, v): evaluate
the fills left to right, stop at the first True, and let an exception abort
the whole expression.  The first component lists the selectors actually
tried. -/
def fillChain (penv : String → FillOutcome) (val : String) :
    List String → List String × Except Unit Bool
  | [] => ([], Except.ok false)
  | sel :: rest =>
    match fill penv sel val with
    | Except.ok true => ([sel], Except.ok true)
    | Except.ok false =>
      let r := fillChain penv val rest
      (sel :: r.1, r.2)
    | Except.error e => ([sel], Except.error e)

/-- The three email-field strategies in order (lines 131-133): by input
name, by input type, by placeholder text (case-insensitive). -/
def emailSelectors : List String :=
  ["input[name=\"email\"]", "input[type=\"email\"]", "input[placeholder*=\"Email\" i]"]

/-- The three password-field strategies in order (lines 135-137). -/
def passwordSelectors : List String :=
  ["input[name=\"password\"]", "input[type=\"password\"]",
   "input[placeholder*=\"Password\" i]"]

/-- How the two assert-guarded fill stages can fail. -/
inductive LoginFailure where
  | propagated
  | emailNotFound
  | passwordNotFound
  deriving DecidableEq

/-- Lines 131-137: the two assert statements in order.  A propagated
exception from a fill aborts immediately; an or-chain that ends False fails
the assert of its stage; the password stage runs only when the email stage
succeeded. -/
def loginFillStages (penv : String → FillOutcome) (email password : String) :
    Except LoginFailure Unit :=
  match (fillChain penv email emailSelectors).2 with
  | Except.error _ => Except.error LoginFailure.propagated
  | Except.ok false => Except.error LoginFailure.emailNotFound
  | Except.ok true =>
    match (fillChain penv password passwordSelectors).2 with
    | Except.error _ => Except.error LoginFailure.propagated
    | Except.ok false => Except.error LoginFailure.passwordNotFound
    | Except.ok true => Except.ok ()

theorem fillChain_first_filled (penv : String → FillOutcome) (val : String) :
    ∀ (sels : List String) (i : Nat), i < sels.length →
      penv (sels.getD i "") = FillOutcome.filled →
      (∀ j, j < i → penv (sels.getD j "") = FillOutcome.timedOut) →
      fillChain penv val sels = (sels.take (i + 1), Except.ok true)
  | [], i, hi, _, _ => absurd hi (by simp)
  | sel :: rest, 0, _, hm, _ => by
    have hx : penv sel = FillOutcome.filled := hm
    simp [fillChain, fill, hx]
  | sel :: rest, i + 1, hi, hm, hf => by
    have hx : penv sel = FillOutcome.timedOut := hf 0 (Nat.succ_pos i)
    have ih := fillChain_first_filled penv val rest i (by simpa using hi)
      (by simpa using hm) (fun j hj => by simpa using hf (j + 1) (Nat.succ_lt_succ hj))
    simp [fillChain, fill, hx, ih]

theorem fillChain_raised_at (penv : String → FillOutcome) (val : String) :
    ∀ (sels : List String) (i : Nat), i < sels.length →
      penv (sels.getD i "") = FillOutcome.raised →
      (∀ j, j < i → penv (sels.getD j "") = FillOutcome.timedOut) →
      fillChain penv val sels = (sels.take (i + 1), Except.error ())
  | [], i, hi, _, _ => absurd hi (by simp)
  | sel :: rest, 0, _, hm, _ => by
    have hx : penv sel = FillOutcome.raised := hm
    simp [fillChain, fill, hx]
  | sel :: rest, i + 1, hi, hm, hf => by
    have hx : penv sel = FillOutcome.timedOut := hf 0 (Nat.succ_pos i)
    have ih := fillChain_raised_at penv val rest i (by simpa using hi)
      (by simpa using hm) (fun j hj => by simpa using hf (j + 1) (Nat.succ_lt_succ hj))
    simp [fillChain, fill, hx, ih]

theorem fillChain_all_timedOut (penv : String → FillOutcome) (val : String) :
    ∀ sels : List String, (∀ s ∈ sels, penv s = FillOutcome.timedOut) →
      fillChain penv val sels = (sels, Except.ok false)
  | [], _ => rfl
  | sel :: rest, h => by
    have hx : penv sel = FillOutcome.timedOut := h sel (List.mem_cons_self sel rest)
    have ih := fillChain_all_timedOut penv val rest
      (fun s hs => h s (List.mem_cons_of_mem sel hs))
    simp [fillChain, fill, hx, ih]

theorem fillChain_ok_false_all (penv : String → FillOutcome) (val : String) :
    ∀ sels : List String, (fillChain penv val sels).2 = Except.ok false →
      ∀ s ∈ sels, penv s = FillOutcome.timedOut
  | [], _, s, hs => absurd hs (by simp)
  | sel :: rest, h, s, hs => by
    cases hx : penv sel with
    | filled => simp [fillChain, fill, hx] at h
    | raised => simp [fillChain, fill, hx] at h
    | timedOut =>
      rcases List.mem_cons.mp hs with rfl | hs2
      · exact hx
      · refine fillChain_ok_false_all penv val rest ?_ s hs2
        simpa [fillChain, fill, hx] using h

theorem fillChain_ok_true_of_ex (penv : String → FillOutcome) (val : String) :
    ∀ sels : List String, (∀ s ∈ sels, penv s ≠ FillOutcome.raised) →
      (∃ s ∈ sels, penv s = FillOutcome.filled) →
      (fillChain penv val sels).2 = Except.ok true
  | [], _, hex => absurd hex (by simp)
  | sel :: rest, hnr, hex => by
    cases hx : penv sel with
    | filled => simp [fillChain, fill, hx]
    | raised => exact absurd hx (hnr sel (List.mem_cons_self sel rest))
    | timedOut =>
      have hex2 : ∃ s ∈ rest, penv s = FillOutcome.filled := by
        rcases hex with ⟨s, hs, hfs⟩
        rcases List.mem_cons.mp hs with rfl | hs2
        · rw [hx] at hfs
          exact absurd hfs (by simp)
        · exact ⟨s, hs2, hfs⟩
      have ih := fillChain_ok_true_of_ex penv val rest
        (fun s hs => hnr s (List.mem_cons_of_mem sel hs)) hex2
      simp [fillChain, fill, hx, ih]

/-- Claim C8: each login field is filled by trying its three selector
strategies in the fixed order name, type, placeholder: the chain stops at
the first strategy that succeeds (the trace is exactly the selectors up to
and including it), and, when no strategy raises a foreign exception, a
stage signals its fatal assert exactly when none of its three strategies
succeeds. -/
theorem claim_C8 :
    (∀ (penv : String → FillOutcome) (ev : String) (i : Nat),
      i < emailSelectors.length →
      penv (emailSelectors.getD i "") = FillOutcome.filled →
      (∀ j, j < i → penv (emailSelectors.getD j "") = FillOutcome.timedOut) →
      fillChain penv ev emailSelectors = (emailSelectors.take (i + 1), Except.ok true)) ∧
    (∀ (penv : String → FillOutcome) (ev pv : String),
      (∀ s ∈ emailSelectors, penv s ≠ FillOutcome.raised) →
      (loginFillStages penv ev pv = Except.error LoginFailure.emailNotFound ↔
        ∀ s ∈ emailSelectors, penv s ≠ FillOutcome.filled)) ∧
    (∀ (penv : String → FillOutcome) (pv : String) (i : Nat),
      i < passwordSelectors.length →
      penv (passwordSelectors.getD i "") = FillOutcome.filled →
      (∀ j, j < i → penv (passwordSelectors.getD j "") = FillOutcome.timedOut) →
      fillChain penv pv passwordSelectors =
        (passwordSelectors.take (i + 1), Except.ok true)) ∧
    (∀ (penv : String → FillOutcome) (ev pv : String),
      (∀ s ∈ emailSelectors, penv s ≠ FillOutcome.raised) →
      (∀ s ∈ passwordSelectors, penv s ≠ FillOutcome.raised) →
      (∃ s ∈ emailSelectors, penv s = FillOutcome.filled) →
      (loginFillStages penv ev pv = Except.error LoginFailure.passwordNotFound ↔
        ∀ s ∈ passwordSelectors, penv s ≠ FillOutcome.filled)) := by
  refine ⟨?_, ?_, ?_, ?_⟩
  · intro penv ev i hi hm hf
    exact fillChain_first_filled penv ev emailSelectors i hi hm hf
  · intro penv ev pv hnr
    constructor
    · intro h s hs hfs
      have hchain : (fillChain penv ev emailSelectors).2 = Except.ok false := by
        rcases hc : (fillChain penv ev emailSelectors).2 with e | b
        · simp [loginFillStages, hc] at h
        · cases b with
          | true =>
            simp only [loginFillStages, hc] at h
            rcases hc2 : (fillChain penv pv passwordSelectors).2 with e2 | b2 <;>
              simp [hc2] at h <;> cases b2 <;> simp_all
          | false => rfl
      have := fillChain_ok_false_all penv ev emailSelectors hchain s hs
      rw [this] at hfs
      exact absurd hfs (by simp)
    · intro hnone
      have hall : ∀ s ∈ emailSelectors, penv s = FillOutcome.timedOut := by
        intro s hs
        cases hx : penv s with
        | filled => exact absurd hx (hnone s hs)
        | raised => exact absurd hx (hnr s hs)
        | timedOut => rfl
      have hchain := fillChain_all_timedOut penv ev emailSelectors hall
      simp [loginFillStages, hchain]
  · intro penv pv i hi hm hf
    exact fillChain_first_filled penv pv passwordSelectors i hi hm hf
  · intro penv ev pv hnrE hnrP hexE
    have hE : (fillChain penv ev emailSelectors).2 = Except.ok true :=
      fillChain_ok_true_of_ex penv ev emailSelectors hnrE hexE
    constructor
    · intro h s hs hfs
      simp only [loginFillStages, hE] at h
      have hchain : (fillChain penv pv passwordSelectors).2 = Except.ok false := by
        rcases hc : (fillChain penv pv passwordSelectors).2 with e | b
        · simp [hc] at h
        · cases b with
          | true => simp [hc] at h
          | false => rfl
      have := fillChain_ok_false_all penv pv passwordSelectors hchain s hs
      rw [this] at hfs
      exact absurd hfs (by simp)
    · intro hnone
      have hall : ∀ s ∈ passwordSelectors, penv s = FillOutcome.timedOut := by
        intro s hs
        cases hx : penv s with
        | filled => exact absurd hx (hnone s hs)
        | raised => exact absurd hx (hnrP s hs)
        | timedOut => rfl
      have hchain := fillChain_all_timedOut penv pv passwordSelectors hall
      simp [loginFillStages, hE, hchain]

/-- A page on which the name-based email selector times out, every other
selector fills. -/
def penvSecondStrategy : String → FillOutcome :=
  fun s => if s = "input[name=\"email\"]" then FillOutcome.timedOut
           else FillOutcome.filled

theorem claim_C8_witness :
    (fillChain penvSecondStrategy "user" emailSelectors =
      (emailSelectors.take 2, Except.ok true)) ∧
    (loginFillStages penvSecondStrategy "user" "pw" =
        Except.error LoginFailure.emailNotFound ↔
      ∀ s ∈ emailSelectors, penvSecondStrategy s ≠ FillOutcome.filled) ∧
    (fillChain penvSecondStrategy "pw" passwordSelectors =
      (passwordSelectors.take 1, Except.ok true)) ∧
    (loginFillStages penvSecondStrategy "user" "pw" =
        Except.error LoginFailure.passwordNotFound ↔
      ∀ s ∈ passwordSelectors, penvSecondStrategy s ≠ FillOutcome.filled) :=
  ⟨claim_C8.1 penvSecondStrategy "user" 1 (by decide) (by decide)
      (by
        intro j hj
        have hj0 : j = 0 := by omega
        subst hj0
        decide),
    claim_C8.2.1 penvSecondStrategy "user" "pw" (by decide),
    claim_C8.2.2.1 penvSecondStrategy "pw" 0 (by decide) (by decide)
      (by
        intro j hj
        exact absurd hj (Nat.not_lt_zero j)),
    claim_C8.2.2.2 penvSecondStrategy "user" "pw" (by decide) (by decide)
      (by decide)⟩

/-- Claim C9: in the fill helper only PWTimeout is caught; a strategy that
fails with any other exception makes the whole or-chain abort at that
strategy (the trace stops there, the remaining strategies are never tried)
and the login stage, hence the run, fails with the propagated exception
rather than with the assert. -/
theorem claim_C9 (penv : String → FillOutcome) (ev pv : String) (i : Nat)
    (hi : i < emailSelectors.length)
    (hr : penv (emailSelectors.getD i "") = FillOutcome.raised)
    (hprev : ∀ j, j < i → penv (emailSelectors.getD j "") = FillOutcome.timedOut) :
    fillChain penv ev emailSelectors = (emailSelectors.take (i + 1), Except.error ()) ∧
    loginFillStages penv ev pv = Except.error LoginFailure.propagated := by
  have hchain := fillChain_raised_at penv ev emailSelectors i hi hr hprev
  refine ⟨hchain, ?_⟩
  have h2 : (fillChain penv ev emailSelectors).2 = Except.error () := by
    rw [hchain]
  simp [loginFillStages, h2]

/-- A page on which the name-based email selector raises a non-timeout
exception while every other selector would fill. -/
def penvRaisesFirst : String → FillOutcome :=
  fun s => if s = "input[name=\"email\"]" then FillOutcome.raised
           else FillOutcome.filled

theorem claim_C9_witness :
    fillChain penvRaisesFirst "user" emailSelectors =
      (emailSelectors.take 1, Except.error ()) ∧
    loginFillStages penvRaisesFirst "user" "pw" =
      Except.error LoginFailure.propagated :=
  claim_C9 penvRaisesFirst "user" "pw" 0 (by decide) (by decide)
    (by
      intro j hj
      exact absurd hj (Nat.not_lt_zero j))

end RepSpark
